import Mathlib

/-!
# Verification of the banking back-office workflow core

A shallow embedding of the algorithmic parts of the `banking-ai` repository:

* the fuzzy customer matcher (`pages/2_Customer_Verification.py`:
  `fuzzy_match_score`, `verify_customer_advanced`),
* the affordability check (`pages/3_Account_Management.py`:
  `calculate_payment_capability`),
* the case workflow state machine and timeline view
  (`pages/5_Case_Management.py`: `stage_progression`, the advance action,
  `generate_case_timeline`),
* the flat-file case store update (`utils/database.py`:
  `BankingDatabase.update_case`),
* the extractor error boundary (`utils/ai_processor.py`:
  `BankingAIProcessor.classify_document`; `utils/document_processor.py`:
  `EnhancedDocumentProcessor.process_sample_document`).

Modelling conventions:

* Python strings are Lean `String`s; character-level operations
  (`lower`, `strip`, `split`, the `in` containment test) are implemented
  over `List Char` mirroring their CPython semantics on ASCII data.
* Python floats are modelled as exact rationals (`ℚ`).  At every concrete
  value appearing in the claims the double-precision computation of the
  source is exact and agrees with the rational one.
* Dates (handled in the source as `%Y-%m-%d` strings via
  `strptime`/`timedelta`/`strftime`) are modelled as day numbers (`ℕ`),
  so `+ timedelta(days=k)` is `+ k`.
* Python's stable `list.sort(key=..., reverse=True)` is modelled by
  Mathlib's `List.insertionSort` with the relation
  "left score ≥ right score": `orderedInsert` places an element before
  the first element it relates to, which places it after every
  earlier-inserted element of strictly larger or equal score — exactly
  the stable descending order produced by CPython's sort.
-/

/-! ## Character-level string primitives (Python `lower`/`strip`/`split`/`in`) -/

/-- Test `leadEq n h`: the list `n` is an initial segment of `h`
(character-by-character equality test). -/
def leadEq : List Char → List Char → Bool
  | [], _ => true
  | _ :: _, [] => false
  | a :: as, b :: bs => a = b && leadEq as bs

/-- Python's substring containment `needle in hay`, on character lists.
The empty needle is contained in everything, as in Python. -/
def isSubChars (needle : List Char) : List Char → Bool
  | [] => leadEq needle []
  | h :: t => leadEq needle (h :: t) || isSubChars needle t

/-- Python `str.strip()`: drop whitespace from both ends. -/
def trimWs (l : List Char) : List Char :=
  ((l.dropWhile Char.isWhitespace).reverse.dropWhile Char.isWhitespace).reverse

/-- Helper of `splitWs`: accumulates the current word (reversed). -/
def splitWsGo : List Char → List Char → List (List Char)
  | [], acc => if acc.isEmpty then [] else [acc.reverse]
  | c :: rest, acc =>
    if c.isWhitespace then
      if acc.isEmpty then splitWsGo rest []
      else acc.reverse :: splitWsGo rest []
    else splitWsGo rest (c :: acc)

/-- Python `str.split()` with no argument: split on whitespace runs,
discarding empty tokens. -/
def splitWs (l : List Char) : List (List Char) := splitWsGo l []

/-- Python `s.lower().strip()` of the source, producing a character list. -/
def normLower (s : String) : List Char :=
  trimWs (s.toList.map Char.toLower)

/-! ## Fuzzy matcher (`pages/2_Customer_Verification.py`) -/

/-- Inner `any(word in target_word or target_word in word ...)` test of
`fuzzy_match_score`. -/
def wordHit (target_words : List (List Char)) (word : List Char) : Bool :=
  target_words.any fun tw => isSubChars word tw || isSubChars tw word

/-- Function `fuzzy_match_score(search_term, target, field_weight)` of
`pages/2_Customer_Verification.py` (lines 50–78): empty-input guard, then
exact match (100·w), containment either direction (80·w), word-by-word
overlap ((matches/len)·60·w), else 0. -/
def fuzzy_match_score (search_term target : String) (field_weight : ℚ) : ℚ :=
  if search_term = "" ∨ target = "" then 0
  else
    let s := normLower search_term
    let t := normLower target
    if s = t then 100 * field_weight
    else if isSubChars s t || isSubChars t s then 80 * field_weight
    else
      let search_words := splitWs s
      let target_words := splitWs t
      let m := (search_words.filter (wordHit target_words)).length
      if 0 < m then ((m : ℚ) / (search_words.length : ℚ)) * 60 * field_weight
      else 0

/-- A row of the customer store (columns of `data/customers.csv` that the
matcher reads). -/
structure Customer where
  customer_id : String
  name : String
  account_number : String
  address : String
  phone : String
  email : String
  deriving DecidableEq, Repr

/-- The query fields of `verify_customer_advanced`. -/
structure Query where
  customer_name : String
  account_number : String
  address : String
  phone : String
  email : String
  deriving DecidableEq, Repr

/-- The per-customer `total_score` accumulation of
`verify_customer_advanced` (lines 87–119): each nonempty query field
contributes its `fuzzy_match_score` with weight 0.4 / 0.4 / 0.15 /
0.025 / 0.025. -/
def scoreCustomer (q : Query) (c : Customer) : ℚ :=
  (if q.customer_name ≠ "" then fuzzy_match_score q.customer_name c.name (2/5) else 0)
  + (if q.account_number ≠ "" then fuzzy_match_score q.account_number c.account_number (2/5) else 0)
  + (if q.address ≠ "" then fuzzy_match_score q.address c.address (3/20) else 0)
  + (if q.phone ≠ "" then fuzzy_match_score q.phone c.phone (1/40) else 0)
  + (if q.email ≠ "" then fuzzy_match_score q.email c.email (1/40) else 0)

/-- One entry of `best_matches`: the customer, its total score, and its
position in the store's iteration order (recorded for the stability
specification). -/
structure MatchResult where
  idx : ℕ
  customer : Customer
  total_score : ℚ
  deriving DecidableEq, Repr

/-- Scores every customer, tagging each with its iteration index. -/
def scoreAll (q : Query) : ℕ → List Customer → List MatchResult
  | _, [] => []
  | i, c :: cs => ⟨i, c, scoreCustomer q c⟩ :: scoreAll q (i + 1) cs

/-- The comparator of `best_matches.sort(key=lambda x: x['total_score'],
reverse=True)`: `a` may come before `b` iff `a`'s score is ≥ `b`'s. -/
def rankLe (a b : MatchResult) : Prop := b.total_score ≤ a.total_score

instance : DecidableRel rankLe := fun a b =>
  inferInstanceAs (Decidable (b.total_score ≤ a.total_score))

/-- Function `verify_customer_advanced` (lines 80–131): score every customer, keep
those with total score > 20, sort stably by score descending, return the
top 5. -/
def verify_customer_advanced (q : Query) (customers : List Customer) : List MatchResult :=
  let best_matches := (scoreAll q 0 customers).filter fun m => decide (20 < m.total_score)
  (best_matches.insertionSort rankLe).take 5

/-! ### Seed customer data (`utils/database.py`, `_initialize_data_files`) -/

def custJohn : Customer :=
  ⟨"CUST-001", "John Michael Doe", "ACC-2024-001234",
   "123 Main Street, San Francisco, CA 94102", "(555) 123-4567", "john.doe@email.com"⟩

def custJane : Customer :=
  ⟨"CUST-002", "Jane Elizabeth Smith", "ACC-2024-005678",
   "456 Oak Avenue, San Francisco, CA 94103", "(555) 234-5678", "jane.smith@email.com"⟩

def custRobert : Customer :=
  ⟨"CUST-003", "Robert James Johnson", "ACC-2024-009876",
   "789 Pine Street, San Francisco, CA 94104", "(555) 345-6789", "robert.johnson@email.com"⟩

def custMaria : Customer :=
  ⟨"CUST-004", "Maria Elena Rodriguez", "ACC-2024-112233",
   "321 Elm Street, San Francisco, CA 94105", "(555) 456-7890", "maria.rodriguez@email.com"⟩

def custDavid : Customer :=
  ⟨"CUST-005", "David Michael Chen", "ACC-2024-445566",
   "654 Maple Drive, San Francisco, CA 94106", "(555) 567-8901", "david.chen@email.com"⟩

/-- The five seed customers, in store order. -/
def seedCustomers : List Customer :=
  [custJohn, custJane, custRobert, custMaria, custDavid]

/-- Which rule of `fuzzy_match_score` fires (a recomputation of its
control flow with no rational arithmetic, used to evaluate concrete
scores; `fuzzy_match_score_eq_outcome` proves it agrees with the score
function). -/
inductive FuzzyOutcome where
  | empty
  | exact
  | within
  | tokens (m n : ℕ)
  deriving DecidableEq, Repr

/-- The rule selection of `fuzzy_match_score`, separated from the score
arithmetic: `tokens m n` records the number `m` of matched query words
out of `n`. -/
def fuzzy_outcome (search_term target : String) : FuzzyOutcome :=
  if search_term = "" ∨ target = "" then .empty
  else
    let s := normLower search_term
    let t := normLower target
    if s = t then .exact
    else if isSubChars s t || isSubChars t s then .within
    else .tokens ((splitWs s).filter (wordHit (splitWs t))).length (splitWs s).length

/-- The query of the spec's worked scenario: name "John Doe", the exact
account number of the first seed customer, all other fields empty. -/
def c1Query : Query := ⟨"John Doe", "ACC-2024-001234", "", "", ""⟩

/-- Strict ranking order on match results: strictly larger score, or
equal score and earlier original iteration position.  A list that is
`Pairwise beats` is sorted non-increasing by score with ties in original
order — the output order of a stable descending sort. -/
def beats (a b : MatchResult) : Prop :=
  b.total_score < a.total_score ∨ (a.total_score = b.total_score ∧ a.idx < b.idx)

/-! ## Affordability check (`pages/3_Account_Management.py`, lines 69–82) -/

/-- The dictionary returned by `calculate_payment_capability`. -/
structure PaymentCapability where
  payment_possible : Bool
  current_balance : ℚ
  overdraft_limit : ℚ
  available_balance : ℚ
  required_amount : ℚ
  remaining_after_payment : ℚ
  uses_overdraft : Bool
  overdraft_amount : ℚ
  deriving DecidableEq, Repr

/-- Function `calculate_payment_capability(balance, overdraft_limit,
required_amount)` of `pages/3_Account_Management.py`. -/
def calculate_payment_capability (balance overdraft_limit required_amount : ℚ) :
    PaymentCapability :=
  let available_balance := balance + overdraft_limit
  { payment_possible := decide (required_amount ≤ available_balance)
    current_balance := balance
    overdraft_limit := overdraft_limit
    available_balance := available_balance
    required_amount := required_amount
    remaining_after_payment := available_balance - required_amount
    uses_overdraft := decide (balance < required_amount)
    overdraft_amount := max 0 (required_amount - balance) }

/-! ## Case records and the workflow state machine -/

/-- Dates are `%Y-%m-%d` strings in the source, parsed and re-serialized
with `strptime`/`strftime`; they are modelled as day numbers so that
`+ timedelta(days=k)` is `+ k`. -/
abbrev Date := ℕ

/-- A case record of `data/cases.json` (fields per
`BankingDatabase._initialize_data_files` / `create_case`). -/
structure Case where
  case_id : String
  customer_id : String
  customer_name : String
  case_number : String
  creditor : String
  amount_owed : ℚ
  garnishment_amount : ℚ
  status : String
  date_created : Date
  last_updated : Date
  documents : List String
  notes : String
  workflow_stage : String
  deriving DecidableEq, Repr

/-- The fields a caller passes to `BankingDatabase.update_case` as the
`updates` dict (the keys actually used by the pages: `status`,
`workflow_stage`, `notes`); `none` means the key is absent. -/
structure CaseUpdates where
  status : Option String
  workflow_stage : Option String
  notes : Option String
  deriving DecidableEq, Repr

/-- Python `case.update(updates)`: present keys overwrite the record's fields. -/
def applyUpdates (c : Case) (u : CaseUpdates) : Case :=
  { c with
    status := u.status.getD c.status
    workflow_stage := u.workflow_stage.getD c.workflow_stage
    notes := u.notes.getD c.notes }

/-- Method `BankingDatabase.update_case` (`utils/database.py`, lines 305–318):
find the first case with the given id, apply the updates, then
unconditionally stamp `last_updated` with the current date; the loop
breaks after the first match and a missing id leaves the list unchanged. -/
def update_case (now : Date) (case_id : String) (u : CaseUpdates) :
    List Case → List Case
  | [] => []
  | c :: cs =>
    if c.case_id = case_id then
      { applyUpdates c u with last_updated := now } :: cs
    else c :: update_case now case_id u cs

/-- The `stage_progression` dict of `pages/5_Case_Management.py`
(lines 255–260, identical at lines 496–501), read with `.get`:
each stage's single successor, `none` for `completed` and for any
unknown stage. -/
def stage_progression (stage : String) : Option String :=
  if stage = "document_processing" then some "customer_verification"
  else if stage = "customer_verification" then some "account_management"
  else if stage = "account_management" then some "payment_processing"
  else if stage = "payment_processing" then some "completed"
  else none

/-- The "Advance Stage" action (`pages/5_Case_Management.py`,
lines 253–266, and the bulk form at lines 495–515), applied to one case:
if the current stage has a successor, write it through
`db.update_case` (which stamps `last_updated := now`); otherwise do
nothing at all. -/
def advance (now : Date) (c : Case) : Case :=
  match stage_progression c.workflow_stage with
  | some new_stage => { applyUpdates c ⟨none, some new_stage, none⟩ with last_updated := now }
  | none => c

/-! ## Timeline view (`pages/5_Case_Management.py`, lines 87–139) -/

/-- A timeline entry of `generate_case_timeline`.  The `description`
field of the source is a presentational interpolated string (including
locale money formatting) and is not modelled; `event`, `date` and
`stage` are. -/
structure TimelineEvent where
  date : Date
  event : String
  stage : String
  deriving DecidableEq, Repr

/-- Function `generate_case_timeline(case_data)`: one "Case Created" entry dated
`date_created`, then mock entries gated on the current `workflow_stage`,
dated `date_created + 1/2/3` days, and for a completed case two final
entries dated `last_updated`. -/
def generate_case_timeline (c : Case) : List TimelineEvent :=
  [⟨c.date_created, "Case Created", "document_processing"⟩]
  ++ (if c.workflow_stage ∈ ["customer_verification", "account_management",
        "payment_processing", "completed"] then
        [⟨c.date_created + 1, "Document Processed", "document_processing"⟩] else [])
  ++ (if c.workflow_stage ∈ ["account_management", "payment_processing",
        "completed"] then
        [⟨c.date_created + 2, "Customer Verified", "customer_verification"⟩] else [])
  ++ (if c.workflow_stage ∈ ["payment_processing", "completed"] then
        [⟨c.date_created + 3, "Account Frozen", "account_management"⟩] else [])
  ++ (if c.workflow_stage = "completed" then
        [⟨c.last_updated, "Payment Processed", "payment_processing"⟩,
         ⟨c.last_updated, "Case Closed", "completed"⟩] else [])

/-- The ordered stage list of the workflow (`workflow_stages` of
`pages/5_Case_Management.py`, lines 316–322). -/
def workflow_stages : List String :=
  ["document_processing", "customer_verification", "account_management",
   "payment_processing", "completed"]

/-- A concrete completed case used to exhibit the timeline behaviour. -/
def exCompletedCase : Case :=
  ⟨"CASE-2024-003", "CUST-004", "Maria Elena Rodriguez", "CV-2024-009876",
   "Legal Recovery Associates", 8400, 2100, "Completed", 10, 110,
   ["account_freeze_order_3.pdf"], "", "completed"⟩

/-- The first seed case of `data/cases.json` (CASE-2024-001, in stage
`document_processing`), with its `%Y-%m-%d` dates 2024-01-15 and
2024-01-20 rendered as day numbers 15 and 20. -/
def seedCase1 : Case :=
  ⟨"CASE-2024-001", "CUST-001", "John Michael Doe", "CV-2024-001234",
   "ABC Collections Agency", 5000, 1250, "Active", 15, 20,
   ["garnishment_order_1.pdf"], "Initial garnishment order received and processed",
   "document_processing"⟩

/-! ## Extractor error boundary -/

/-- The result dict of `BankingAIProcessor.classify_document`
(`utils/ai_processor.py`, lines 70–118). -/
structure ClassifyResult where
  document_type : String
  customer_name : String
  account_number : String
  case_number : String
  creditor_name : String
  amount : ℚ
  date_filed : String
  bank_name : String
  confidence_score : ℚ
  summary : String
  deriving DecidableEq, Repr

/-- The fallback dict built in the `except` branch of
`classify_document`: every field blank, zero confidence, and the error
text carried in `summary`. -/
def classifyErrorResult (e : String) : ClassifyResult :=
  ⟨"unknown", "", "", "", "", 0, "", "", 0, "Error processing document: " ++ e⟩

/-- Method `classify_document`, with its two external effects passed in as
values: `call` is the chat-completion call (`.error e` when the API call
raises with message `e`, `.ok content` when it returns `content`), and
`parse` is `json.loads` on the reply (`.error e` when it raises).  Both
failure paths fall into the single `except` clause of the source. -/
def classify_document (call : Except String String)
    (parse : String → Except String ClassifyResult) : ClassifyResult :=
  match call with
  | .error e => classifyErrorResult e
  | .ok content =>
    match parse content with
    | .ok result => result
    | .error e => classifyErrorResult e

/-- Status tags of `EnhancedDocumentProcessor.process_sample_document`. -/
inductive ProcStatus where
  | processed
  | partial_success
  | error
  deriving DecidableEq, Repr

/-- The fields extracted from the model reply that
`process_sample_document` reads. -/
structure ExtractedInfo where
  confidence_score : ℚ
  deriving DecidableEq, Repr

/-- The result dict of `process_sample_document` (only the keys common
to its branches are modelled; `none` marks absent keys). -/
structure ProcResult where
  filename : String
  status : ProcStatus
  error : Option String
  confidence_score : ℚ
  fields : Option ExtractedInfo
  raw_response : Option String
  deriving DecidableEq, Repr

/-- Method `EnhancedDocumentProcessor.process_sample_document`
(`utils/document_processor.py`, lines 83–149), with its external effects
passed in as values: `document_text` is what `extract_text_from_pdf`
returned (an `"Error..."` string on failure, as in the source),
`call` is the chat-completion call, and `parse` is `json.loads` on the
reply.  A text-extraction failure or an API exception yields `status =
error` with zero confidence; a reply that fails JSON parsing yields
`status = partial_success` with confidence 50 and the raw reply. -/
def process_sample_document (filename document_text : String)
    (call : Except String String)
    (parse : String → Except String ExtractedInfo) : ProcResult :=
  if leadEq "Error".toList document_text.toList then
    ⟨filename, .error, some document_text, 0, none, none⟩
  else
    match call with
    | .error e => ⟨filename, .error, some e, 0, none, none⟩
    | .ok content =>
      match parse content with
      | .ok result => ⟨filename, .processed, none, result.confidence_score, some result, none⟩
      | .error e =>
        ⟨filename, .partial_success, some ("JSON parsing error: " ++ e), 50, none, some content⟩

/-! ## Theorems -/

/-- The score function agrees with its rule-selection skeleton: this lets
concrete scores be computed by deciding the (rational-free) outcome and
then doing the rational arithmetic of the selected rule. -/
theorem fuzzy_match_score_eq_outcome (s t : String) (w : ℚ) :
    fuzzy_match_score s t w =
      match fuzzy_outcome s t with
      | .empty => 0
      | .exact => 100 * w
      | .within => 80 * w
      | .tokens m n => if 0 < m then ((m : ℚ) / (n : ℚ)) * 60 * w else 0 := by
  unfold fuzzy_match_score fuzzy_outcome
  split_ifs with h0
  · rfl
  · dsimp only
    split_ifs with h1 h2 h3
    · rfl
    · rfl
    · exact (if_pos h3).symm
    · exact (if_neg h3).symm

/-- C4: for every case whose workflow_stage is `completed` (terminal, no
successor in the fixed table), the advance operation is a no-op: no error,
and the case — in particular `workflow_stage` and `last_updated` — is left
entirely unchanged. -/
theorem claim_c4_advance_completed_noop (now : Date) (c : Case)
    (h : c.workflow_stage = "completed") : advance now c = c := by
  simp [advance, h, stage_progression]

/-- Witness for C4: advancing the concrete completed case changes nothing. -/
theorem claim_c4_witness : advance 999 exCompletedCase = exCompletedCase :=
  claim_c4_advance_completed_noop 999 exCompletedCase rfl

/-- C2: for every balance, overdraft limit and required amount, the
affordability check returns availableBalance = balance + overdraftLimit,
possible ↔ availableBalance ≥ requiredAmount, usesOverdraft ↔
requiredAmount > balance (even when not possible), overdraftAmount =
max 0 (requiredAmount − balance) and remainingAfterPayment =
availableBalance − requiredAmount; and the two concrete examples of the
spec: canPay(1000, 500, 1200) is possible, uses the overdraft by 200 and
leaves 300, while canPay(1000, 0, 1200) is not possible. -/
theorem claim_c2_payment_capability :
    (∀ balance overdraft_limit required_amount : ℚ,
      (calculate_payment_capability balance overdraft_limit required_amount).available_balance
          = balance + overdraft_limit
      ∧ ((calculate_payment_capability balance overdraft_limit required_amount).payment_possible
            = true ↔ required_amount ≤ balance + overdraft_limit)
      ∧ ((calculate_payment_capability balance overdraft_limit required_amount).uses_overdraft
            = true ↔ balance < required_amount)
      ∧ (calculate_payment_capability balance overdraft_limit required_amount).overdraft_amount
          = max 0 (required_amount - balance)
      ∧ (calculate_payment_capability balance overdraft_limit required_amount).remaining_after_payment
          = balance + overdraft_limit - required_amount)
    ∧ (calculate_payment_capability 1000 500 1200).payment_possible = true
    ∧ (calculate_payment_capability 1000 500 1200).uses_overdraft = true
    ∧ (calculate_payment_capability 1000 500 1200).overdraft_amount = 200
    ∧ (calculate_payment_capability 1000 500 1200).remaining_after_payment = 300
    ∧ (calculate_payment_capability 1000 0 1200).payment_possible = false := by
  refine ⟨fun b o r => ⟨rfl, ?_, ?_, rfl, rfl⟩, ?_, ?_, ?_, ?_, ?_⟩
  · simp [calculate_payment_capability]
  · simp [calculate_payment_capability]
  · simp [calculate_payment_capability]; norm_num
  · simp [calculate_payment_capability]; norm_num
  · simp only [calculate_payment_capability]; norm_num
  · simp only [calculate_payment_capability]; norm_num
  · simp [calculate_payment_capability]; norm_num

/-- C3: starting from a case in `document_processing`, four applications
of the advance operation pass through `customer_verification`,
`account_management` and `payment_processing` to `completed`, each
successful transition moving to the single successor of the fixed table
and stamping `last_updated` with the date of that update; a fifth
application is a no-op. -/
theorem claim_c3_advance_four_times (c : Case) (d1 d2 d3 d4 d5 : Date)
    (h : c.workflow_stage = "document_processing") :
    (advance d1 c).workflow_stage = "customer_verification"
    ∧ (advance d1 c).last_updated = d1
    ∧ (advance d2 (advance d1 c)).workflow_stage = "account_management"
    ∧ (advance d2 (advance d1 c)).last_updated = d2
    ∧ (advance d3 (advance d2 (advance d1 c))).workflow_stage = "payment_processing"
    ∧ (advance d3 (advance d2 (advance d1 c))).last_updated = d3
    ∧ (advance d4 (advance d3 (advance d2 (advance d1 c)))).workflow_stage = "completed"
    ∧ (advance d4 (advance d3 (advance d2 (advance d1 c)))).last_updated = d4
    ∧ advance d5 (advance d4 (advance d3 (advance d2 (advance d1 c))))
        = advance d4 (advance d3 (advance d2 (advance d1 c))) := by
  simp [advance, stage_progression, applyUpdates, h]

/-- Witness for C3: the four advances on the seed case CASE-2024-001
(stage `document_processing`) reach `completed`, and a fifth is a no-op. -/
theorem claim_c3_witness :
    (advance 24 (advance 23 (advance 22 (advance 21 seedCase1)))).workflow_stage = "completed"
    ∧ advance 25 (advance 24 (advance 23 (advance 22 (advance 21 seedCase1))))
        = advance 24 (advance 23 (advance 22 (advance 21 seedCase1))) := by
  have h := claim_c3_advance_four_times seedCase1 21 22 23 24 25 rfl
  exact ⟨h.2.2.2.2.2.2.1, h.2.2.2.2.2.2.2.2⟩

/-- C10: `update_case` stamps `last_updated` with the current date on the
case it updates, for every update dictionary `u` — in particular for
notes-only or status-only updates that do not touch `workflow_stage` —
so `last_updated` records the most recent modification of any kind. -/
theorem claim_c10_update_stamps_last_updated (now : Date) (cid : String)
    (u : CaseUpdates) (cases : List Case) (h : ∃ c ∈ cases, c.case_id = cid) :
    ∃ c ∈ update_case now cid u cases, c.case_id = cid ∧ c.last_updated = now := by
  induction cases with
  | nil => simp at h
  | cons a l ih =>
    by_cases ha : a.case_id = cid
    · refine ⟨{ applyUpdates a u with last_updated := now }, ?_, ?_, rfl⟩
      · simp [update_case, ha]
      · simpa [applyUpdates] using ha
    · have hl : ∃ c ∈ l, c.case_id = cid := by
        obtain ⟨c, hc, hcid⟩ := h
        rcases List.mem_cons.mp hc with rfl | hcl
        · exact absurd hcid ha
        · exact ⟨c, hcl, hcid⟩
      obtain ⟨d, hd, h1, h2⟩ := ih hl
      exact ⟨d, by simp [update_case, ha, hd], h1, h2⟩

/-- Witness for C10: a notes-only update of the concrete completed case
stamps `last_updated` with the given current date 200. -/
theorem claim_c10_witness :
    ∃ c ∈ update_case 200 "CASE-2024-003" ⟨none, none, some "reviewed"⟩ [exCompletedCase],
      c.case_id = "CASE-2024-003" ∧ c.last_updated = 200 :=
  claim_c10_update_stamps_last_updated 200 "CASE-2024-003" ⟨none, none, some "reviewed"⟩
    [exCompletedCase] ⟨exCompletedCase, by simp, rfl⟩

/-- Counterexample to C8: for the concrete completed case, the timeline
has 6 events, not one per stage of the 5-stage workflow — the completed
branch appends two events ("Payment Processed" and "Case Closed"), and
it dates them with `last_updated` (here 110, with `date_created` 10),
which is not a fixed day offset from `date_created`. -/
theorem claim_c8_counterexample :
    (generate_case_timeline exCompletedCase).length = 6
    ∧ (generate_case_timeline exCompletedCase).length ≠ workflow_stages.length
    ∧ ⟨110, "Case Closed", "completed"⟩ ∈ generate_case_timeline exCompletedCase
    ∧ exCompletedCase.date_created = 10
    ∧ exCompletedCase.last_updated = 110 := by
  refine ⟨by decide, by decide, ?_, rfl, rfl⟩
  decide

/-- C8 amended: timeline reconstruction is a pure read-only view; for a
case in one of the four non-terminal stages (index i in the workflow
order) it synthesizes exactly i+1 events, dated at the fixed offsets
0..i days from `date_created`; for a completed case it synthesizes 6
events (not one per stage): the four offset-dated ones, then "Payment
Processed" and "Case Closed" both dated `last_updated`. -/
theorem claim_c8_amended_timeline (c : Case) :
    (c.workflow_stage = "document_processing" →
      generate_case_timeline c =
        [⟨c.date_created, "Case Created", "document_processing"⟩])
    ∧ (c.workflow_stage = "customer_verification" →
      generate_case_timeline c =
        [⟨c.date_created, "Case Created", "document_processing"⟩,
         ⟨c.date_created + 1, "Document Processed", "document_processing"⟩])
    ∧ (c.workflow_stage = "account_management" →
      generate_case_timeline c =
        [⟨c.date_created, "Case Created", "document_processing"⟩,
         ⟨c.date_created + 1, "Document Processed", "document_processing"⟩,
         ⟨c.date_created + 2, "Customer Verified", "customer_verification"⟩])
    ∧ (c.workflow_stage = "payment_processing" →
      generate_case_timeline c =
        [⟨c.date_created, "Case Created", "document_processing"⟩,
         ⟨c.date_created + 1, "Document Processed", "document_processing"⟩,
         ⟨c.date_created + 2, "Customer Verified", "customer_verification"⟩,
         ⟨c.date_created + 3, "Account Frozen", "account_management"⟩])
    ∧ (c.workflow_stage = "completed" →
      generate_case_timeline c =
        [⟨c.date_created, "Case Created", "document_processing"⟩,
         ⟨c.date_created + 1, "Document Processed", "document_processing"⟩,
         ⟨c.date_created + 2, "Customer Verified", "customer_verification"⟩,
         ⟨c.date_created + 3, "Account Frozen", "account_management"⟩,
         ⟨c.last_updated, "Payment Processed", "payment_processing"⟩,
         ⟨c.last_updated, "Case Closed", "completed"⟩]) := by
  refine ⟨fun h => ?_, fun h => ?_, fun h => ?_, fun h => ?_, fun h => ?_⟩ <;>
    simp [generate_case_timeline, h]

/-- Witness for C8 amended: the completed branch evaluated on the
concrete case. -/
theorem claim_c8_witness :
    generate_case_timeline exCompletedCase =
      [⟨10, "Case Created", "document_processing"⟩,
       ⟨11, "Document Processed", "document_processing"⟩,
       ⟨12, "Customer Verified", "customer_verification"⟩,
       ⟨13, "Account Frozen", "account_management"⟩,
       ⟨110, "Payment Processed", "payment_processing"⟩,
       ⟨110, "Case Closed", "completed"⟩] := by
  simpa using (claim_c8_amended_timeline exCompletedCase).2.2.2.2 rfl

/-- C9: at the extractor boundary, a failing extraction call (API error,
or a reply on which JSON parsing raises) is downgraded to a result value
carrying the error with zero confidence instead of propagating — in
`classify_document` both failure modes yield the fallback dict with
`confidence_score = 0` and the error text in `summary`; in
`process_sample_document` a text-extraction failure or an API exception
yields `status = error` with zero confidence and the error carried in
the result, while a reply that is not valid JSON yields the distinct
`status = partial_success` rather than a crash. -/
theorem claim_c9_extractor_boundary :
    (∀ e parse, classify_document (.error e) parse = classifyErrorResult e)
    ∧ (∀ content e parse, parse content = .error e →
        classify_document (.ok content) parse = classifyErrorResult e)
    ∧ (∀ e, (classifyErrorResult e).confidence_score = 0
        ∧ (classifyErrorResult e).summary = "Error processing document: " ++ e)
    ∧ (∀ fn text parse, leadEq "Error".toList text.toList = true →
        (process_sample_document fn text (.ok "") parse).status = .error
        ∧ (process_sample_document fn text (.ok "") parse).confidence_score = 0
        ∧ (process_sample_document fn text (.ok "") parse).error = some text)
    ∧ (∀ fn text e parse, leadEq "Error".toList text.toList = false →
        (process_sample_document fn text (.error e) parse).status = .error
        ∧ (process_sample_document fn text (.error e) parse).confidence_score = 0
        ∧ (process_sample_document fn text (.error e) parse).error = some e)
    ∧ (∀ fn text content e parse, leadEq "Error".toList text.toList = false →
        parse content = .error e →
        (process_sample_document fn text (.ok content) parse).status = .partial_success
        ∧ (process_sample_document fn text (.ok content) parse).error
            = some ("JSON parsing error: " ++ e)) := by
  refine ⟨fun e parse => rfl, fun content e parse hp => ?_, fun e => ⟨rfl, rfl⟩,
    fun fn text parse ht => ?_, fun fn text e parse ht => ?_,
    fun fn text content e parse ht hp => ?_⟩
  · simp [classify_document, hp]
  · simp at ht
    refine ⟨?_, ?_, ?_⟩ <;> simp [process_sample_document, ht]
  · simp at ht
    refine ⟨?_, ?_, ?_⟩ <;> simp [process_sample_document, ht]
  · simp at ht
    refine ⟨?_, ?_⟩ <;> simp [process_sample_document, ht, hp]

/-- Witness for C9: a non-JSON model reply ("not json", with `json.loads`
raising "Expecting value") on a successfully extracted document is
surfaced as a partial success. -/
theorem claim_c9_witness :
    (process_sample_document "garnishment_order_1.pdf" "WRIT OF EXECUTION"
        (.ok "not json") (fun _ => .error "Expecting value")).status = .partial_success
    ∧ (process_sample_document "garnishment_order_1.pdf" "WRIT OF EXECUTION"
        (.ok "not json") (fun _ => .error "Expecting value")).error
        = some ("JSON parsing error: " ++ "Expecting value") :=
  claim_c9_extractor_boundary.2.2.2.2.2 "garnishment_order_1.pdf" "WRIT OF EXECUTION"
    "not json" "Expecting value" (fun _ => .error "Expecting value") (by decide) rfl

/-- Every per-field score is bounded by 100 times its weight: each rule
returns at most 100·w, the token rule because at most every query word
can match. -/
theorem fuzzy_match_score_le (s t : String) (w : ℚ) (hw : 0 ≤ w) :
    fuzzy_match_score s t w ≤ 100 * w := by
  unfold fuzzy_match_score
  split_ifs with h0
  · exact mul_nonneg (by norm_num) hw
  · dsimp only
    split_ifs with h1 h2 h3
    · exact le_refl _
    · exact mul_le_mul_of_nonneg_right (by norm_num) hw
    · set m := (List.filter (wordHit (splitWs (normLower t))) (splitWs (normLower s))).length with hm
      set n := (splitWs (normLower s)).length with hn
      have hmn : m ≤ n := List.length_filter_le _ _
      have hnpos : 0 < n := lt_of_lt_of_le h3 hmn
      have hdiv : (m : ℚ) / (n : ℚ) ≤ 1 := by
        rw [div_le_one (by exact_mod_cast hnpos)]
        exact_mod_cast hmn
      calc (m : ℚ) / (n : ℚ) * 60 * w ≤ 1 * 60 * w := by
            exact mul_le_mul_of_nonneg_right
              (mul_le_mul_of_nonneg_right hdiv (by norm_num)) hw
        _ ≤ 100 * w := by
            rw [one_mul]
            exact mul_le_mul_of_nonneg_right (by norm_num) hw
    · exact mul_nonneg (by norm_num) hw

/-- A guarded per-field contribution of `verify_customer_advanced` is
bounded by 100 times the field weight. -/
theorem guarded_score_le (p : Prop) [Decidable p] (s t : String) (w : ℚ) (hw : 0 ≤ w) :
    (if p then fuzzy_match_score s t w else 0) ≤ 100 * w := by
  split_ifs
  · exact fuzzy_match_score_le s t w hw
  · exact mul_nonneg (by norm_num) hw

/-- C6: for every query and customer, the aggregate match score (sum over
the five fields of per-field score times weight 0.4/0.4/0.15/0.025/0.025)
is at most 100, and a name-only query matching the stored name exactly
(after case/space normalization) scores exactly 40. -/
theorem claim_c6_aggregate_bounds :
    (∀ (q : Query) (c : Customer), scoreCustomer q c ≤ 100)
    ∧ (∀ (q : Query) (c : Customer), q.customer_name ≠ "" → c.name ≠ "" →
        normLower q.customer_name = normLower c.name →
        q.account_number = "" → q.address = "" → q.phone = "" → q.email = "" →
        scoreCustomer q c = 40) := by
  constructor
  · intro q c
    have h1 := guarded_score_le (q.customer_name ≠ "") q.customer_name c.name
      (2/5) (by norm_num)
    have h2 := guarded_score_le (q.account_number ≠ "") q.account_number c.account_number
      (2/5) (by norm_num)
    have h3 := guarded_score_le (q.address ≠ "") q.address c.address (3/20) (by norm_num)
    have h4 := guarded_score_le (q.phone ≠ "") q.phone c.phone (1/40) (by norm_num)
    have h5 := guarded_score_le (q.email ≠ "") q.email c.email (1/40) (by norm_num)
    unfold scoreCustomer
    calc _ ≤ 100 * (2/5 : ℚ) + 100 * (2/5) + 100 * (3/20) + 100 * (1/40) + 100 * (1/40) :=
          add_le_add (add_le_add (add_le_add (add_le_add h1 h2) h3) h4) h5
      _ = 100 := by norm_num
  · intro q c h1 h2 h3 h4 h5 h6 h7
    have hname : fuzzy_match_score q.customer_name c.name (2/5) = 100 * (2/5 : ℚ) := by
      unfold fuzzy_match_score
      rw [if_neg (by rw [not_or]; exact ⟨h1, h2⟩)]
      dsimp only
      rw [if_pos h3]
    unfold scoreCustomer
    rw [if_pos h1, hname, if_neg (by rw [not_not]; exact h4), if_neg (by rw [not_not]; exact h5),
      if_neg (by rw [not_not]; exact h6), if_neg (by rw [not_not]; exact h7)]
    norm_num

/-- Witness for C6: a name-only query with the exact stored name of the
first seed customer scores 40. -/
theorem claim_c6_witness :
    scoreCustomer ⟨"John Michael Doe", "", "", "", ""⟩ custJohn = 40 :=
  claim_c6_aggregate_bounds.2 ⟨"John Michael Doe", "", "", "", ""⟩ custJohn
    (by decide) (by decide) (by decide) rfl rfl rfl rfl

/-- C7: for every pair of disjoint field strings — not equal after
normalization, neither contained in the other, and no query token
contained in or containing any target token — the per-field score is 0,
for any field weight. -/
theorem claim_c7_disjoint_zero (s t : String) (w : ℚ)
    (h1 : normLower s ≠ normLower t)
    (h2 : isSubChars (normLower s) (normLower t) = false)
    (h3 : isSubChars (normLower t) (normLower s) = false)
    (h4 : ∀ a ∈ splitWs (normLower s), ∀ b ∈ splitWs (normLower t),
      isSubChars a b = false ∧ isSubChars b a = false) :
    fuzzy_match_score s t w = 0 := by
  unfold fuzzy_match_score
  split_ifs with h0
  · rfl
  · dsimp only
    rw [if_neg h1, if_neg (by rw [h2, h3]; simp)]
    have hfil : (splitWs (normLower s)).filter (wordHit (splitWs (normLower t))) = [] := by
      rw [List.filter_eq_nil_iff]
      intro a ha
      unfold wordHit
      rw [List.any_eq_true]
      rintro ⟨b, hb, hab⟩
      rcases h4 a ha b hb with ⟨hab1, hab2⟩
      rw [hab1, hab2] at hab
      simp at hab
    rw [hfil]
    simp

/-- Witness for C7: two concretely disjoint names score 0. -/
theorem claim_c7_witness : fuzzy_match_score "Alice Brown" "Zed Quex" 1 = 0 :=
  claim_c7_disjoint_zero "Alice Brown" "Zed Quex" 1 (by decide) (by decide) (by decide)
    (by decide)

/-- Every result of `scoreAll` starting at index `i` has index at least
`i`. -/
theorem scoreAll_idx_ge (q : Query) :
    ∀ (cs : List Customer) (i : ℕ) (m : MatchResult), m ∈ scoreAll q i cs → i ≤ m.idx := by
  intro cs
  induction cs with
  | nil => intro i m hm; simp [scoreAll] at hm
  | cons c l ih =>
    intro i m hm
    rcases List.mem_cons.mp hm with rfl | hm2
    · exact le_refl _
    · exact le_of_lt (lt_of_lt_of_le (Nat.lt_succ_self i) (ih (i + 1) m hm2))

/-- The indexed score list is strictly increasing in iteration index. -/
theorem scoreAll_pairwise_idx (q : Query) :
    ∀ (cs : List Customer) (i : ℕ),
      (scoreAll q i cs).Pairwise (fun a b => a.idx < b.idx) := by
  intro cs
  induction cs with
  | nil => intro i; simp [scoreAll]
  | cons c l ih =>
    intro i
    refine List.Pairwise.cons ?_ (ih (i + 1))
    intro b hb
    exact lt_of_lt_of_le (Nat.lt_succ_self i) (scoreAll_idx_ge q l (i + 1) b hb)

/-- Inserting an element whose iteration index is smaller than that of
every element of an already `beats`-ordered list (with the comparator of
the source's sort) keeps the list `beats`-ordered. -/
theorem orderedInsert_pairwise_beats (x : MatchResult) :
    ∀ (l : List MatchResult), l.Pairwise beats → (∀ y ∈ l, x.idx < y.idx) →
      (l.orderedInsert rankLe x).Pairwise beats := by
  intro l
  induction l with
  | nil => intro _ _; simp [List.orderedInsert, List.pairwise_singleton]
  | cons b l ih =>
    intro hp hx
    rw [List.orderedInsert]
    split_ifs with hr
    · refine List.Pairwise.cons ?_ hp
      intro z hz
      have hzle : z.total_score ≤ x.total_score := by
        rcases List.mem_cons.mp hz with rfl | hzl
        · exact hr
        · rcases List.rel_of_pairwise_cons hp hzl with hlt | ⟨heq, _⟩
          · exact le_trans (le_of_lt hlt) hr
          · exact le_trans (le_of_eq heq.symm) hr
      rcases lt_or_eq_of_le hzle with hlt | heq
      · exact Or.inl hlt
      · exact Or.inr ⟨heq.symm, hx z hz⟩
    · refine List.Pairwise.cons ?_ (ih (List.Pairwise.of_cons hp) fun y hy => hx y (List.mem_cons_of_mem b hy))
      intro z hz
      rcases (List.mem_orderedInsert rankLe).mp hz with rfl | hzl
      · exact Or.inl (lt_of_not_le hr)
      · exact List.rel_of_pairwise_cons hp hzl

/-- The stable descending sort of a list that is strictly increasing in
iteration index is `beats`-ordered: non-increasing in score, with ties in
original iteration order. -/
theorem insertionSort_pairwise_beats :
    ∀ (l : List MatchResult), l.Pairwise (fun a b => a.idx < b.idx) →
      (l.insertionSort rankLe).Pairwise beats := by
  intro l
  induction l with
  | nil => intro _; simp [List.insertionSort]
  | cons x l ih =>
    intro hp
    rw [List.insertionSort]
    refine orderedInsert_pairwise_beats x _ (ih (List.Pairwise.of_cons hp)) ?_
    intro y hy
    exact List.rel_of_pairwise_cons hp ((List.mem_insertionSort rankLe).mp hy)

/-- C5: for every query and customer store, the matcher returns at most 5
candidates, the returned list is `beats`-ordered — sorted non-increasing
by total score, ties kept in the customers' original iteration order —
and every returned candidate has total score strictly greater than 20. -/
theorem claim_c5_matcher_output_shape (q : Query) (cs : List Customer) :
    (verify_customer_advanced q cs).length ≤ 5
    ∧ (verify_customer_advanced q cs).Pairwise beats
    ∧ ∀ m ∈ verify_customer_advanced q cs, 20 < m.total_score := by
  unfold verify_customer_advanced
  dsimp only
  refine ⟨?_, ?_, ?_⟩
  · rw [List.length_take]
    exact min_le_left _ _
  · exact List.Pairwise.sublist (List.take_sublist _ _)
      (insertionSort_pairwise_beats _ ((scoreAll_pairwise_idx q cs 0).filter _))
  · intro m hm
    have hm2 : m ∈ (scoreAll q 0 cs).filter (fun m => decide (20 < m.total_score)) :=
      (List.mem_insertionSort rankLe).mp (List.mem_of_mem_take hm)
    exact of_decide_eq_true (List.mem_filter.mp hm2).2

/-- With empty address, phone and email query fields, only the name and
account contributions remain. -/
theorem scoreCustomer_no_extra_fields (q : Query) (c : Customer)
    (h3 : q.address = "") (h4 : q.phone = "") (h5 : q.email = "") :
    scoreCustomer q c =
      (if q.customer_name ≠ "" then fuzzy_match_score q.customer_name c.name (2/5) else 0)
      + (if q.account_number ≠ "" then
          fuzzy_match_score q.account_number c.account_number (2/5) else 0) := by
  unfold scoreCustomer
  rw [h3, h4, h5]
  simp

/-- The scenario query against the first seed customer: token rule on the
name (24) plus exact rule on the account (40). -/
theorem score_c1_john : scoreCustomer c1Query custJohn = 64 := by
  rw [show c1Query = ⟨"John Doe", "ACC-2024-001234", "", "", ""⟩ from rfl]
  rw [scoreCustomer_no_extra_fields _ _ rfl rfl rfl]
  rw [if_pos (by decide), if_pos (by decide)]
  rw [fuzzy_match_score_eq_outcome, fuzzy_match_score_eq_outcome]
  rw [show fuzzy_outcome "John Doe" custJohn.name = .tokens 2 2 from by decide,
    show fuzzy_outcome "ACC-2024-001234" custJohn.account_number = .exact from by decide]
  norm_num

/-- The scenario query scores 0 against the second seed customer. -/
theorem score_c1_jane : scoreCustomer c1Query custJane = 0 := by
  rw [show c1Query = ⟨"John Doe", "ACC-2024-001234", "", "", ""⟩ from rfl]
  rw [scoreCustomer_no_extra_fields _ _ rfl rfl rfl]
  rw [if_pos (by decide), if_pos (by decide)]
  rw [fuzzy_match_score_eq_outcome, fuzzy_match_score_eq_outcome]
  rw [show fuzzy_outcome "John Doe" custJane.name = .tokens 0 2 from by decide,
    show fuzzy_outcome "ACC-2024-001234" custJane.account_number = .tokens 0 1 from by decide]
  norm_num

/-- The scenario query scores 12 against the third seed customer ("john"
matches inside "johnson": 1 of 2 query words). -/
theorem score_c1_robert : scoreCustomer c1Query custRobert = 12 := by
  rw [show c1Query = ⟨"John Doe", "ACC-2024-001234", "", "", ""⟩ from rfl]
  rw [scoreCustomer_no_extra_fields _ _ rfl rfl rfl]
  rw [if_pos (by decide), if_pos (by decide)]
  rw [fuzzy_match_score_eq_outcome, fuzzy_match_score_eq_outcome]
  rw [show fuzzy_outcome "John Doe" custRobert.name = .tokens 1 2 from by decide,
    show fuzzy_outcome "ACC-2024-001234" custRobert.account_number = .tokens 0 1 from by decide]
  norm_num

/-- The scenario query scores 0 against the fourth seed customer. -/
theorem score_c1_maria : scoreCustomer c1Query custMaria = 0 := by
  rw [show c1Query = ⟨"John Doe", "ACC-2024-001234", "", "", ""⟩ from rfl]
  rw [scoreCustomer_no_extra_fields _ _ rfl rfl rfl]
  rw [if_pos (by decide), if_pos (by decide)]
  rw [fuzzy_match_score_eq_outcome, fuzzy_match_score_eq_outcome]
  rw [show fuzzy_outcome "John Doe" custMaria.name = .tokens 0 2 from by decide,
    show fuzzy_outcome "ACC-2024-001234" custMaria.account_number = .tokens 0 1 from by decide]
  norm_num

/-- The scenario query scores 0 against the fifth seed customer. -/
theorem score_c1_david : scoreCustomer c1Query custDavid = 0 := by
  rw [show c1Query = ⟨"John Doe", "ACC-2024-001234", "", "", ""⟩ from rfl]
  rw [scoreCustomer_no_extra_fields _ _ rfl rfl rfl]
  rw [if_pos (by decide), if_pos (by decide)]
  rw [fuzzy_match_score_eq_outcome, fuzzy_match_score_eq_outcome]
  rw [show fuzzy_outcome "John Doe" custDavid.name = .tokens 0 2 from by decide,
    show fuzzy_outcome "ACC-2024-001234" custDavid.account_number = .tokens 0 1 from by decide]
  norm_num

/-- The indexed scores of the scenario query over the seed store. -/
theorem scoreAll_c1 : scoreAll c1Query 0 seedCustomers =
    [⟨0, custJohn, 64⟩, ⟨1, custJane, 0⟩, ⟨2, custRobert, 12⟩,
     ⟨3, custMaria, 0⟩, ⟨4, custDavid, 0⟩] := by
  simp [scoreAll, seedCustomers, score_c1_john, score_c1_jane, score_c1_robert,
    score_c1_maria, score_c1_david]

/-- C1: for the stored customer "John Michael Doe" / ACC-2024-001234, the
query with name "John Doe" and the exactly matching account number (other
fields empty) scores 24 on the name (token rule: 2/2 × 60 × 0.4, since
"john doe" is not a substring of "john michael doe"), 40 on the account
(exact rule: 100 × 0.4), total 64; the candidate is retained (64 > 20)
and it is the only candidate returned — every unrelated customer scoring
0 (or below the threshold) is excluded, so it is ranked above them. -/
theorem claim_c1_scenario :
    fuzzy_match_score "John Doe" "John Michael Doe" (2/5) = 24
    ∧ fuzzy_match_score "ACC-2024-001234" "ACC-2024-001234" (2/5) = 40
    ∧ scoreCustomer c1Query custJohn = 64
    ∧ 20 < scoreCustomer c1Query custJohn
    ∧ verify_customer_advanced c1Query seedCustomers = [⟨0, custJohn, 64⟩] := by
  refine ⟨?_, ?_, score_c1_john, ?_, ?_⟩
  · rw [fuzzy_match_score_eq_outcome,
      show fuzzy_outcome "John Doe" "John Michael Doe" = .tokens 2 2 from by decide]
    norm_num
  · rw [fuzzy_match_score_eq_outcome,
      show fuzzy_outcome "ACC-2024-001234" "ACC-2024-001234" = .exact from by decide]
    norm_num
  · rw [score_c1_john]
    norm_num
  · unfold verify_customer_advanced
    rw [scoreAll_c1]
    decide

/-- Witness for C5: on the seed store with the scenario query, the output
has length ≤ 5, is `beats`-ordered, and its (sole) member — the first
seed customer with score 64 — scores above the threshold 20. -/
theorem claim_c5_witness :
    (verify_customer_advanced c1Query seedCustomers).length ≤ 5
    ∧ (verify_customer_advanced c1Query seedCustomers).Pairwise beats
    ∧ 20 < (⟨0, custJohn, (64:ℚ)⟩ : MatchResult).total_score := by
  have h := claim_c5_matcher_output_shape c1Query seedCustomers
  refine ⟨h.1, h.2.1, h.2.2 ⟨0, custJohn, 64⟩ ?_⟩
  have hv : verify_customer_advanced c1Query seedCustomers = [⟨0, custJohn, 64⟩] := by
    unfold verify_customer_advanced
    rw [scoreAll_c1]
    decide
  rw [hv]
  exact List.mem_singleton_self _
